import Mathlib

/-!
# srpc project generator: basic (HTTP / Redis) controller

A shallow embedding of `tools/srpc_basic_controller.cc`: the protocol type
resolver, the text fragments spliced into the templates, the file transform
functions that feed one formatted write each, the file manifest of the two
controllers, and the option parser.

Machine integers are natural numbers with the conversions written out:
`uint8_t` values are taken modulo 256, `unsigned short` modulo 65536, `size_t`
modulo 2^64. Path buffers hold `MAXPATHLEN` bytes; a write past their end has no
defined result. `getopt` and `sscanf` are library functions and are modelled
for the one option string and the one conversion the parser uses.
-/

namespace Srpc

/-! ## Enumerators and configuration -/

/-- The enumerators the controller reads from `srpc_controller.h`. That header is
not among the sources, so the numeric values are parameters of the embedding. -/
structure Enums where
  COMMAND_HTTP : Nat
  COMMAND_REDIS : Nat
  COMMAND_MYSQL : Nat
  COMMAND_PROXY : Nat
  PROTOCOL_TYPE_HTTP : Nat
  PROTOCOL_TYPE_REDIS : Nat
  PROTOCOL_TYPE_MYSQL : Nat
  PROTOCOL_TYPE_MAX : Nat
deriving DecidableEq, Repr

/-- What is assumed of the enumerators: the four command families are pairwise
distinct, the four protocol types are pairwise distinct, and every protocol
type fits the `uint8_t` that `get_protocol_type` returns. -/
def Enums.wf (K : Enums) : Prop :=
  K.COMMAND_HTTP ≠ K.COMMAND_REDIS ∧ K.COMMAND_HTTP ≠ K.COMMAND_MYSQL ∧
  K.COMMAND_HTTP ≠ K.COMMAND_PROXY ∧ K.COMMAND_REDIS ≠ K.COMMAND_MYSQL ∧
  K.COMMAND_REDIS ≠ K.COMMAND_PROXY ∧ K.COMMAND_MYSQL ≠ K.COMMAND_PROXY ∧
  K.PROTOCOL_TYPE_HTTP ≠ K.PROTOCOL_TYPE_REDIS ∧ K.PROTOCOL_TYPE_HTTP ≠ K.PROTOCOL_TYPE_MYSQL ∧
  K.PROTOCOL_TYPE_HTTP ≠ K.PROTOCOL_TYPE_MAX ∧ K.PROTOCOL_TYPE_REDIS ≠ K.PROTOCOL_TYPE_MYSQL ∧
  K.PROTOCOL_TYPE_REDIS ≠ K.PROTOCOL_TYPE_MAX ∧ K.PROTOCOL_TYPE_MYSQL ≠ K.PROTOCOL_TYPE_MAX ∧
  K.PROTOCOL_TYPE_HTTP < 256 ∧ K.PROTOCOL_TYPE_REDIS < 256 ∧
  K.PROTOCOL_TYPE_MYSQL < 256 ∧ K.PROTOCOL_TYPE_MAX < 256

instance (K : Enums) : Decidable K.wf := by
  unfold Enums.wf
  infer_instance

/-- One assignment of the enumerators satisfying `Enums.wf`; the protocol types
of the three direct commands share the value of their command family. -/
def sampleEnums : Enums :=
  { COMMAND_HTTP := 0, COMMAND_REDIS := 1, COMMAND_MYSQL := 2, COMMAND_PROXY := 6,
    PROTOCOL_TYPE_HTTP := 0, PROTOCOL_TYPE_REDIS := 1, PROTOCOL_TYPE_MYSQL := 2,
    PROTOCOL_TYPE_MAX := 29 }

/-- The fields of `struct srpc_config` that the basic controller reads or writes.
`type`, `proxy_server_type` and `proxy_client_type` are `uint8_t` in the source. -/
structure srpc_config where
  type : Nat
  proxy_server_type : Nat
  proxy_client_type : Nat
  output_path : String := ""
  template_path : String := ""
  depend_path : String := ""
  specified_depend_path : Bool := false
deriving DecidableEq, Repr

/-- Conversion of an `int` enumerator to the `uint8_t` return type. -/
def to_uint8 (n : Nat) : Nat := n % 256

/-! ## Protocol type resolver -/

/-- `get_protocol_type(config, type)`: three guarded returns, then the sentinel. -/
def get_protocol_type (K : Enums) (config : srpc_config) (type : Nat) : Nat :=
  if config.type = K.COMMAND_HTTP ∨
      (config.type = K.COMMAND_PROXY ∧ type = K.PROTOCOL_TYPE_HTTP) then
    to_uint8 K.PROTOCOL_TYPE_HTTP
  else if config.type = K.COMMAND_REDIS ∨
      (config.type = K.COMMAND_PROXY ∧ type = K.PROTOCOL_TYPE_REDIS) then
    to_uint8 K.PROTOCOL_TYPE_REDIS
  else if config.type = K.COMMAND_MYSQL ∨
      (config.type = K.COMMAND_PROXY ∧ type = K.PROTOCOL_TYPE_MYSQL) then
    to_uint8 K.PROTOCOL_TYPE_MYSQL
  else
    to_uint8 K.PROTOCOL_TYPE_MAX

/-- `get_client_protocol_type(config)`. -/
def get_client_protocol_type (K : Enums) (config : srpc_config) : Nat :=
  get_protocol_type K config config.proxy_client_type

/-- `get_server_protocol_type(config)`. -/
def get_server_protocol_type (K : Enums) (config : srpc_config) : Nat :=
  get_protocol_type K config config.proxy_server_type

/-! ## Fragment library -/

/-- `server_process_codes(type)`. -/
def server_process_codes (K : Enums) (type : Nat) : String :=
  if type = K.PROTOCOL_TYPE_HTTP then
    "\n    fprintf(stderr, \"http server get request_uri: %s\\n\",\n            task->get_req()->get_request_uri());\n    print_peer_address<WFHttpTask>(task);\n\n    task->get_resp()->append_output_body(\"<html>Hello from server!</html>\");\n"
  else if type = K.PROTOCOL_TYPE_REDIS then
    "\n        protocol::RedisRequest *req   = task->get_req();\n        protocol::RedisResponse *resp = task->get_resp();\n        protocol::RedisValue val;\n        std::string cmd;\n\n        if (req->parse_success() == false || req->get_command(cmd) == false)\n            return;\n\n        fprintf(stderr, \"redis server get cmd: [%s] from \", cmd.c_str());\n        print_peer_address<WFRedisTask>(task);\n\n        val.set_status(\"OK\"); // example: return OK to every requests\n        resp->set_result(val);\n"
  else
    "Unknown type"

/-- `client_redirect_codes(type)`. -/
def client_redirect_codes (K : Enums) (type : Nat) : String :=
  if type = K.PROTOCOL_TYPE_HTTP then
    "\n                                                        config.redirect_max(),"
  else
    ""

/-- `client_task_callback_codes(type)`. -/
def client_task_callback_codes (K : Enums) (type : Nat) : String :=
  if type = K.PROTOCOL_TYPE_HTTP then
    "\n     if (state == WFT_STATE_SUCCESS) // print server response body\n     \x7b\n        const void *body;\n        size_t body_len;\n\n        task->get_resp()->get_parsed_body(&body, &body_len);\n        fwrite(body, 1, body_len, stdout);\n        fflush(stdout);\n     \x7d\n"
  else if type = K.PROTOCOL_TYPE_REDIS then
    "\n    protocol::RedisResponse *resp = task->get_resp();\n    protocol::RedisValue val;\n\n    if (state == WFT_STATE_SUCCESS && resp->parse_success() == true)\n    \x7b\n        resp->get_result(val);\n        fprintf(stderr, \"response: %s\\n\", val.string_value().c_str());\n    \x7d\n"
  else
    "Unknown type"

/-- `client_set_request_codes(type)`. -/
def client_set_request_codes (K : Enums) (type : Nat) : String :=
  if type = K.PROTOCOL_TYPE_HTTP then
    "\n    protocol::HttpRequest *req = task->get_req();\n    req->set_request_uri(\"/client_request\"); // will send to server by proxy\n"
  else if type = K.PROTOCOL_TYPE_REDIS then
    "\n    task->get_req()->set_request(\"SET\", \x7b\"k1\", \"v1\"\x7d);\n"
  else
    "Unknown type"

/-- `username_passwd_codes(type)`. -/
def username_passwd_codes (K : Enums) (type : Nat) : String :=
  if type = K.PROTOCOL_TYPE_REDIS ∨ type = K.PROTOCOL_TYPE_MYSQL then
    "config.client_user_name() +\n                      std::string(\":\") + config.client_password() +\n                      std::string(\"@\") +"
  else
    ""

/-! ## Formatted writes -/

/-- One variadic argument of a formatted write. -/
inductive FmtArg where
  | uint (n : Nat)
  | str (s : String)
deriving DecidableEq, Repr

/-- The formatted write, seen from the caller: format string and arguments in,
the `int` result of `fprintf` out. The sink is external to the controller. -/
abbrev Fprintf := String → List FmtArg → Int

/-- Conversion of the `int` result of `fprintf` to `size_t` (64 bits). -/
def to_size_t (r : Int) : Nat := (r % 2 ^ 64).toNat

/-- Conversion of an `int` value to `unsigned short` (16 bits). -/
def to_ushort (r : Int) : Nat := (r % 2 ^ 16).toNat

/-! ## File transform functions -/

/-- The value of the local `port` of `basic_server_config_transform` when the
formatted write is issued. -/
def basic_server_config_port (K : Enums) (config : srpc_config) : Nat :=
  if get_server_protocol_type K config = K.PROTOCOL_TYPE_HTTP then 80
  else if get_server_protocol_type K config = K.PROTOCOL_TYPE_REDIS then 6379
  else if get_server_protocol_type K config = K.PROTOCOL_TYPE_MYSQL then 3306
  else 1412

/-- The arguments `basic_server_config_transform` substitutes into the format. -/
def basic_server_config_args (K : Enums) (config : srpc_config) : List FmtArg :=
  [FmtArg.uint (basic_server_config_port K config)]

/-- `basic_server_config_transform(format, out, config)`. -/
def basic_server_config_transform (K : Enums) (fprintf : Fprintf) (format : String)
    (config : srpc_config) : Bool :=
  let len := to_size_t (fprintf format (basic_server_config_args K config))
  decide (len > 0)

/-- The locals of `basic_client_config_transform`. -/
structure ClientConfigLocals where
  port : Nat
  redirect_code : String
  user_and_passwd : String
deriving DecidableEq, Repr

/-- The locals of `basic_client_config_transform` after the branch on the resolved
client type: both strings start out empty. -/
def basic_client_config_branch (K : Enums) (config : srpc_config) : ClientConfigLocals :=
  if get_client_protocol_type K config = K.PROTOCOL_TYPE_HTTP then
    { port := 80, redirect_code := "\n    \"redirect_max\": 2,", user_and_passwd := "" }
  else if get_client_protocol_type K config = K.PROTOCOL_TYPE_REDIS then
    { port := 6379, redirect_code := "",
      user_and_passwd := ",\n    \"user_name\": \"root\",\n    \"password\": \"\"" }
  else if get_client_protocol_type K config = K.PROTOCOL_TYPE_MYSQL then
    { port := 3306, redirect_code := "", user_and_passwd := "" }
  else
    { port := 1412, redirect_code := "", user_and_passwd := "" }

/-- The locals of `basic_client_config_transform` when the formatted write is
issued: for a proxy command `port = port - 1` is computed in `int` and stored
back into the `unsigned short`. -/
def basic_client_config_locals (K : Enums) (config : srpc_config) : ClientConfigLocals :=
  let l := basic_client_config_branch K config
  if config.type = K.COMMAND_PROXY then
    { l with port := to_ushort ((l.port : Int) - 1) }
  else
    l

/-- The arguments `basic_client_config_transform` substitutes into the format. -/
def basic_client_config_args (K : Enums) (config : srpc_config) : List FmtArg :=
  let l := basic_client_config_locals K config
  [FmtArg.uint l.port, FmtArg.str l.redirect_code, FmtArg.str l.user_and_passwd]

/-- `basic_client_config_transform(format, out, config)`. -/
def basic_client_config_transform (K : Enums) (fprintf : Fprintf) (format : String)
    (config : srpc_config) : Bool :=
  let len := to_size_t (fprintf format (basic_client_config_args K config))
  decide (len > 0)

/-- The specification's table of default ports (HTTP 80, Redis 6379, MySQL 3306,
anything else 1412), against which the ports of the transforms are compared. -/
def spec_default_port (K : Enums) (type : Nat) : Nat :=
  if type = K.PROTOCOL_TYPE_HTTP then 80
  else if type = K.PROTOCOL_TYPE_REDIS then 6379
  else if type = K.PROTOCOL_TYPE_MYSQL then 3306
  else 1412

/-- Lower-casing of a display name: `std::transform(..., ::tolower)` in the "C" locale. -/
def to_lower (s : String) : String := String.mk (s.data.map Char.toLower)

/-- The arguments `basic_server_transform` substitutes into the format.
`get_type_string` is declared outside this file and is a parameter. -/
def basic_server_args (K : Enums) (get_type_string : Nat → String)
    (config : srpc_config) : List FmtArg :=
  let server_type := get_server_protocol_type K config
  let type := get_type_string server_type
  [FmtArg.str type, FmtArg.str type,
    FmtArg.str (server_process_codes K server_type),
    FmtArg.str type, FmtArg.str type]

/-- `basic_server_transform(format, out, config)`. -/
def basic_server_transform (K : Enums) (get_type_string : Nat → String) (fprintf : Fprintf)
    (format : String) (config : srpc_config) : Bool :=
  let len := to_size_t (fprintf format (basic_server_args K get_type_string config))
  decide (len > 0)

/-- The arguments `basic_client_transform` substitutes into the format. -/
def basic_client_args (K : Enums) (get_type_string : Nat → String)
    (config : srpc_config) : List FmtArg :=
  let client_type := get_client_protocol_type K config
  let type := get_type_string client_type
  let client_lower := to_lower type
  [FmtArg.str type, FmtArg.str type, FmtArg.str type,
    FmtArg.str (client_task_callback_codes K client_type),
    FmtArg.str client_lower,
    FmtArg.str (username_passwd_codes K client_type),
    FmtArg.str type, FmtArg.str client_lower,
    FmtArg.str (client_redirect_codes K client_type),
    FmtArg.str (client_set_request_codes K client_type)]

/-- `basic_client_transform(format, out, config)`. -/
def basic_client_transform (K : Enums) (get_type_string : Nat → String) (fprintf : Fprintf)
    (format : String) (config : srpc_config) : Bool :=
  let len := to_size_t (fprintf format (basic_client_args K get_type_string config))
  decide (len > 0)

/-! ## File manifest and controllers -/

/-- The functions a manifest entry can point to. `common_cmake_transform` is defined
in another file of the tool; only its address is used here. -/
inductive transform_function where
  | basic_server_config_transform
  | basic_client_config_transform
  | basic_server_transform
  | basic_client_transform
  | common_cmake_transform
deriving DecidableEq, Repr

/-- `struct CommandController::file_info`: template path, destination path and
transform function, `none` for `nullptr`. -/
structure file_info where
  in_file : String
  out_file : String
  transform : Option transform_function
deriving DecidableEq, Repr

/-- `basic_default_file_initialize(files)`: twelve `push_back` calls in order. -/
def basic_default_file_initialize (files : List file_info) : List file_info :=
  files ++
  [ { in_file := "basic/server.conf", out_file := "server.conf",
      transform := some transform_function.basic_server_config_transform },
    { in_file := "basic/client.conf", out_file := "client.conf",
      transform := some transform_function.basic_client_config_transform },
    { in_file := "basic/server_main.cc", out_file := "server_main.cc",
      transform := some transform_function.basic_server_transform },
    { in_file := "basic/client_main.cc", out_file := "client_main.cc",
      transform := some transform_function.basic_client_transform },
    { in_file := "common/config.json", out_file := "example.conf", transform := none },
    { in_file := "common/util.h", out_file := "config/util.h", transform := none },
    { in_file := "common/CMakeLists.txt", out_file := "CMakeLists.txt",
      transform := some transform_function.common_cmake_transform },
    { in_file := "common/GNUmakefile", out_file := "GNUmakefile", transform := none },
    { in_file := "config/Json.h", out_file := "config/Json.h", transform := none },
    { in_file := "config/Json.cc", out_file := "config/Json.cc", transform := none },
    { in_file := "config/config_simple.h", out_file := "config/config.h", transform := none },
    { in_file := "config/config_simple.cc", out_file := "config/config.cc", transform := none } ]

/-- The state of a `CommandController`: its configuration and its manifest. -/
structure CommandController where
  config : srpc_config
  default_files : List file_info
deriving DecidableEq, Repr

/-- `HttpController::HttpController()`: `init` is the configuration as the base
constructor leaves it, and the manifest starts out empty. -/
def HttpController (K : Enums) (init : srpc_config) : CommandController :=
  { config := { init with type := K.COMMAND_HTTP },
    default_files := basic_default_file_initialize [] }

/-- `RedisController::RedisController()`. -/
def RedisController (K : Enums) (init : srpc_config) : CommandController :=
  { config := { init with type := K.COMMAND_REDIS },
    default_files := basic_default_file_initialize [] }

/-! ## Option parsing -/

/-- `isspace` in the "C" locale: the blank and the characters 9 to 13. -/
def isspace (c : Char) : Bool := c = ' ' || (9 ≤ c.toNat && c.toNat ≤ 13)

/-- `sscanf(optarg, "%s", buf)`: leading white space is skipped and the longest run
of characters that are not white space is the token. `none` when there is no
token: the call then returns EOF instead of 1 and stores nothing. -/
def sscanf_token (optarg : String) : Option String :=
  let token := (optarg.data.dropWhile isspace).takeWhile (fun c => !isspace c)
  if token = [] then none else some (String.mk token)

/-- Storing a scanned token into a path buffer of `MAXPATHLEN` bytes. The token
and its terminating NUL have to fit; `%s` has no field width, so a longer token
is written past the end of the buffer, which is undefined: `none`. -/
def store_path (MAXPATHLEN : Nat) (token : String) : Option String :=
  if token.utf8ByteSize < MAXPATHLEN then some token else none

/-- The option characters of the option string `"o:t:d:"`; each takes an argument. -/
def optstring_chars : List Char := ['o', 't', 'd']

/-- The results of `getopt` inside one argument, given the characters after the
leading `-` and the argument that follows, if any: the pairs of returned
character and `optarg`, and whether the following argument was consumed.
An option character takes the rest of its argument as `optarg`, or else the
following argument; `?` is returned for a character outside the option string
and for a missing option argument. -/
def getopt_cluster : List Char → Option String → List (Char × String) × Bool
  | [], _ => ([], false)
  | c :: cs, next =>
    if c ∈ optstring_chars then
      if cs ≠ [] then ([(c, String.mk cs)], false)
      else
        match next with
        | some arg => ([(c, arg)], true)
        | none => ([('?', "")], false)
    else
      let r := getopt_cluster cs next
      (('?', "") :: r.1, r.2)

/-- The successive results of `getopt(argc, argv, "o:t:d:")` over the arguments
from `optind` on, up to the `-1` that ends the loop, in glibc's default
ordering. The flag says that the head argument was already consumed as an
`optarg`. Scanning ends at `--`. An argument that is not an option (it does
not start with `-`, or it is `-` alone) is passed over and scanning goes on
behind it: glibc moves such operands to the end of `argv`, which leaves the
arguments still to be scanned in their order. -/
def getopt_results : Bool → List String → List (Char × String)
  | _, [] => []
  | true, _ :: rest => getopt_results false rest
  | false, arg :: rest =>
    match arg.data with
    | '-' :: c :: cs =>
      if c = '-' ∧ cs = [] then []
      else
        let r := getopt_cluster (c :: cs) rest.head?
        r.1 ++ getopt_results r.2 rest
    | _ => getopt_results false rest

/-- The `while` loop of `basic_get_opt` over the results of `getopt`: the value
returned and the configuration left behind, `none` when a path buffer is
overrun. Case `d` has no `break` and runs into `default`. The text printed by
`default` is not part of the state. -/
def get_opt_loop (MAXPATHLEN : Nat) :
    List (Char × String) → srpc_config → Option (Bool × srpc_config)
  | [], config => some (true, config)
  | (c, optarg) :: rest, config =>
    if c = 'o' then
      match sscanf_token optarg with
      | none => some (false, config)
      | some token =>
        match store_path MAXPATHLEN token with
        | none => none
        | some path => get_opt_loop MAXPATHLEN rest { config with output_path := path }
    else if c = 't' then
      match sscanf_token optarg with
      | none => some (false, config)
      | some token =>
        match store_path MAXPATHLEN token with
        | none => none
        | some path => get_opt_loop MAXPATHLEN rest { config with template_path := path }
    else if c = 'd' then
      let cleared := { config with specified_depend_path := true, depend_path := "" }
      match sscanf_token optarg with
      | none => some (false, cleared)
      | some token =>
        match store_path MAXPATHLEN token with
        | none => none
        | some path => some (false, { cleared with depend_path := path })
    else
      some (false, config)

/-- `basic_get_opt(argc, argv, config)` with `argc` the length of `argv`: `optind`
is set to 3 and the loop runs over what `getopt` returns (`char` is signed, so
the `-1` of `getopt` ends the loop). -/
def basic_get_opt (MAXPATHLEN : Nat) (argv : List String) (config : srpc_config) :
    Option (Bool × srpc_config) :=
  get_opt_loop MAXPATHLEN (getopt_results false (argv.drop 3)) config

/-- `HttpController::get_opt(argc, argv)`. -/
def HttpController_get_opt (MAXPATHLEN : Nat) (argv : List String)
    (self : CommandController) : Option (Bool × CommandController) :=
  (basic_get_opt MAXPATHLEN argv self.config).map
    (fun r => (r.1, { self with config := r.2 }))

/-! ## Protocol type resolver: properties -/

/-- C1: when the command family is COMMAND_HTTP, COMMAND_REDIS or COMMAND_MYSQL,
both the server role and the client role resolve to the protocol type named by
the family, whatever the two proxy sub-types hold. -/
theorem get_protocol_type_direct_family (K : Enums) (hK : K.wf) (config : srpc_config) :
    (config.type = K.COMMAND_HTTP →
      get_server_protocol_type K config = K.PROTOCOL_TYPE_HTTP ∧
      get_client_protocol_type K config = K.PROTOCOL_TYPE_HTTP) ∧
    (config.type = K.COMMAND_REDIS →
      get_server_protocol_type K config = K.PROTOCOL_TYPE_REDIS ∧
      get_client_protocol_type K config = K.PROTOCOL_TYPE_REDIS) ∧
    (config.type = K.COMMAND_MYSQL →
      get_server_protocol_type K config = K.PROTOCOL_TYPE_MYSQL ∧
      get_client_protocol_type K config = K.PROTOCOL_TYPE_MYSQL) := by
  obtain ⟨c1, c2, c3, c4, c5, c6, _, _, _, _, _, _, b1, b2, b3, _⟩ := hK
  refine ⟨fun h => ?_, fun h => ?_, fun h => ?_⟩ <;>
    simp [get_server_protocol_type, get_client_protocol_type, get_protocol_type, to_uint8, h,
      c1, c2, c3, c4, c5, c6, Ne.symm c1, Ne.symm c2, Ne.symm c4, Nat.mod_eq_of_lt, b1, b2, b3]

/-- Witness for C1: a Redis command whose proxy sub-types hold other values. -/
theorem get_protocol_type_direct_family_witness :
    sampleEnums.wf ∧
    get_server_protocol_type sampleEnums { type := 1, proxy_server_type := 0, proxy_client_type := 2 } = 1 ∧
    get_client_protocol_type sampleEnums { type := 1, proxy_server_type := 0, proxy_client_type := 2 } = 1 :=
  ⟨by decide,
    (get_protocol_type_direct_family sampleEnums (by decide)
      { type := 1, proxy_server_type := 0, proxy_client_type := 2 }).2.1 rfl⟩

/-- C2: for a proxy command whose server sub-type s and client sub-type c are each
one of HTTP, Redis, MySQL, the server role resolves to s and the client role to
c; with s = Redis and c = HTTP the roles resolve to Redis and HTTP. -/
theorem get_protocol_type_proxy_roles (K : Enums) (hK : K.wf) (config : srpc_config)
    (hproxy : config.type = K.COMMAND_PROXY)
    (hs : config.proxy_server_type = K.PROTOCOL_TYPE_HTTP ∨
      config.proxy_server_type = K.PROTOCOL_TYPE_REDIS ∨
      config.proxy_server_type = K.PROTOCOL_TYPE_MYSQL)
    (hc : config.proxy_client_type = K.PROTOCOL_TYPE_HTTP ∨
      config.proxy_client_type = K.PROTOCOL_TYPE_REDIS ∨
      config.proxy_client_type = K.PROTOCOL_TYPE_MYSQL) :
    get_server_protocol_type K config = config.proxy_server_type ∧
    get_client_protocol_type K config = config.proxy_client_type ∧
    (config.proxy_server_type = K.PROTOCOL_TYPE_REDIS →
      config.proxy_client_type = K.PROTOCOL_TYPE_HTTP →
      get_server_protocol_type K config = K.PROTOCOL_TYPE_REDIS ∧
      get_client_protocol_type K config = K.PROTOCOL_TYPE_HTTP) := by
  obtain ⟨_, _, c3, _, c5, c6, p1, p2, _, p4, _, _, b1, b2, b3, _⟩ := hK
  have key : ∀ t, (t = K.PROTOCOL_TYPE_HTTP ∨ t = K.PROTOCOL_TYPE_REDIS ∨
      t = K.PROTOCOL_TYPE_MYSQL) → get_protocol_type K config t = t := by
    intro t ht
    rcases ht with h | h | h <;>
      simp [get_protocol_type, to_uint8, hproxy, h, Ne.symm c3, Ne.symm c5, Ne.symm c6,
        Ne.symm p1, Ne.symm p2, Ne.symm p4, Nat.mod_eq_of_lt, b1, b2, b3]
  have hsrv : get_server_protocol_type K config = config.proxy_server_type := key _ hs
  have hcli : get_client_protocol_type K config = config.proxy_client_type := key _ hc
  exact ⟨hsrv, hcli, fun h1 h2 => ⟨hsrv.trans h1, hcli.trans h2⟩⟩

/-- Witness for C2: the proxy command with a Redis server side and an HTTP client side. -/
theorem get_protocol_type_proxy_roles_witness :
    get_server_protocol_type sampleEnums { type := 6, proxy_server_type := 1, proxy_client_type := 0 } = 1 ∧
    get_client_protocol_type sampleEnums { type := 6, proxy_server_type := 1, proxy_client_type := 0 } = 0 :=
  ((get_protocol_type_proxy_roles sampleEnums (by decide)
    { type := 6, proxy_server_type := 1, proxy_client_type := 0 } rfl
    (Or.inr (Or.inl rfl)) (Or.inl rfl)).2.2 rfl rfl)

/-- C3: get_protocol_type is a total function; for a command family that is none of
HTTP, Redis, MySQL, proxy it returns PROTOCOL_TYPE_MAX for every role argument,
for a proxy command whose sub-type is none of HTTP, Redis, MySQL it returns
PROTOCOL_TYPE_MAX, and its result is always one of HTTP, Redis, MySQL, MAX. -/
theorem get_protocol_type_sentinel (K : Enums) (hK : K.wf) (config : srpc_config) (type : Nat) :
    (config.type ≠ K.COMMAND_HTTP → config.type ≠ K.COMMAND_REDIS →
      config.type ≠ K.COMMAND_MYSQL → config.type ≠ K.COMMAND_PROXY →
      get_protocol_type K config type = K.PROTOCOL_TYPE_MAX) ∧
    (config.type = K.COMMAND_PROXY → type ≠ K.PROTOCOL_TYPE_HTTP →
      type ≠ K.PROTOCOL_TYPE_REDIS → type ≠ K.PROTOCOL_TYPE_MYSQL →
      get_protocol_type K config type = K.PROTOCOL_TYPE_MAX) ∧
    (get_protocol_type K config type = K.PROTOCOL_TYPE_HTTP ∨
      get_protocol_type K config type = K.PROTOCOL_TYPE_REDIS ∨
      get_protocol_type K config type = K.PROTOCOL_TYPE_MYSQL ∨
      get_protocol_type K config type = K.PROTOCOL_TYPE_MAX) := by
  obtain ⟨_, _, c3, _, c5, c6, _, _, _, _, _, _, b1, b2, b3, b4⟩ := hK
  refine ⟨fun h1 h2 h3 h4 => ?_, fun h1 h2 h3 h4 => ?_, ?_⟩
  · simp [get_protocol_type, to_uint8, h1, h2, h3, h4, Nat.mod_eq_of_lt, b4]
  · simp [get_protocol_type, to_uint8, h1, h2, h3, h4, Ne.symm c3, Ne.symm c5, Ne.symm c6,
      Nat.mod_eq_of_lt, b4]
  · unfold get_protocol_type to_uint8
    split_ifs <;> simp [Nat.mod_eq_of_lt, b1, b2, b3, b4]

/-- Witness for C3: an unrelated command family, and a proxy command with an
unrelated sub-type, both resolve to the sentinel. -/
theorem get_protocol_type_sentinel_witness :
    get_protocol_type sampleEnums { type := 4, proxy_server_type := 0, proxy_client_type := 0 } 0 = 29 ∧
    get_protocol_type sampleEnums { type := 6, proxy_server_type := 3, proxy_client_type := 3 } 3 = 29 :=
  ⟨(get_protocol_type_sentinel sampleEnums (by decide)
      { type := 4, proxy_server_type := 0, proxy_client_type := 0 } 0).1
      (by decide) (by decide) (by decide) (by decide),
   (get_protocol_type_sentinel sampleEnums (by decide)
      { type := 6, proxy_server_type := 3, proxy_client_type := 3 } 3).2.1
      rfl (by decide) (by decide) (by decide)⟩

/-! ## Config transforms: ports -/

/-- C4: for a command that is not a proxy, basic_server_config_transform substitutes
port 80 when the server type resolves to HTTP, 6379 for Redis, 3306 for MySQL,
and 1412 for every other resolved type. -/
theorem basic_server_config_port_direct (K : Enums) (hK : K.wf) (config : srpc_config)
    (_ : config.type ≠ K.COMMAND_PROXY) :
    (get_server_protocol_type K config = K.PROTOCOL_TYPE_HTTP →
      basic_server_config_args K config = [FmtArg.uint 80]) ∧
    (get_server_protocol_type K config = K.PROTOCOL_TYPE_REDIS →
      basic_server_config_args K config = [FmtArg.uint 6379]) ∧
    (get_server_protocol_type K config = K.PROTOCOL_TYPE_MYSQL →
      basic_server_config_args K config = [FmtArg.uint 3306]) ∧
    (get_server_protocol_type K config ≠ K.PROTOCOL_TYPE_HTTP →
      get_server_protocol_type K config ≠ K.PROTOCOL_TYPE_REDIS →
      get_server_protocol_type K config ≠ K.PROTOCOL_TYPE_MYSQL →
      basic_server_config_args K config = [FmtArg.uint 1412]) := by
  obtain ⟨_, _, _, _, _, _, p1, p2, _, p4, _, _, _, _, _, _⟩ := hK
  refine ⟨fun h => ?_, fun h => ?_, fun h => ?_, fun h1 h2 h3 => ?_⟩
  · simp [basic_server_config_args, basic_server_config_port, h]
  · simp [basic_server_config_args, basic_server_config_port, h, Ne.symm p1]
  · simp [basic_server_config_args, basic_server_config_port, h, Ne.symm p2, Ne.symm p4]
  · simp [basic_server_config_args, basic_server_config_port, h1, h2, h3]

/-- Witness for C4: the plain Redis command writes port 6379 into server.conf. -/
theorem basic_server_config_port_direct_witness :
    basic_server_config_args sampleEnums
      { type := 1, proxy_server_type := 0, proxy_client_type := 0 } = [FmtArg.uint 6379] :=
  (basic_server_config_port_direct sampleEnums (by decide)
    { type := 1, proxy_server_type := 0, proxy_client_type := 0 } (by decide)).2.1 (by decide)

/-- Counterexample to C5 as stated: the proxy command whose server side resolves
to HTTP has port 80 substituted by basic_server_config_transform, not 79. -/
theorem basic_server_config_proxy_not_decremented :
    (({ type := 6, proxy_server_type := 0, proxy_client_type := 0 } : srpc_config).type
        = sampleEnums.COMMAND_PROXY) ∧
    get_server_protocol_type sampleEnums
      { type := 6, proxy_server_type := 0, proxy_client_type := 0 }
        = sampleEnums.PROTOCOL_TYPE_HTTP ∧
    basic_server_config_args sampleEnums
      { type := 6, proxy_server_type := 0, proxy_client_type := 0 } = [FmtArg.uint 80] ∧
    basic_server_config_args sampleEnums
      { type := 6, proxy_server_type := 0, proxy_client_type := 0 } ≠ [FmtArg.uint 79] ∧
    basic_server_config_port sampleEnums
      { type := 6, proxy_server_type := 0, proxy_client_type := 0 } ≠
      spec_default_port sampleEnums (get_server_protocol_type sampleEnums
        { type := 6, proxy_server_type := 0, proxy_client_type := 0 }) - 1 := by
  decide

/-- C5, amended: for a proxy command basic_server_config_transform substitutes the
default port of the resolved server type itself, with no decrement (80 for
HTTP, 6379 for Redis, 3306 for MySQL, 1412 otherwise); a plain HTTP command
and a proxy command whose server side resolves to HTTP both write 80. -/
theorem basic_server_config_port_proxy (K : Enums) (hK : K.wf) (config : srpc_config)
    (_ : config.type = K.COMMAND_PROXY) :
    basic_server_config_args K config =
      [FmtArg.uint (spec_default_port K (get_server_protocol_type K config))] ∧
    (get_server_protocol_type K config = K.PROTOCOL_TYPE_HTTP →
      basic_server_config_args K config = [FmtArg.uint 80]) ∧
    (get_server_protocol_type K config = K.PROTOCOL_TYPE_REDIS →
      basic_server_config_args K config = [FmtArg.uint 6379]) ∧
    (get_server_protocol_type K config = K.PROTOCOL_TYPE_MYSQL →
      basic_server_config_args K config = [FmtArg.uint 3306]) ∧
    (get_server_protocol_type K config ≠ K.PROTOCOL_TYPE_HTTP →
      get_server_protocol_type K config ≠ K.PROTOCOL_TYPE_REDIS →
      get_server_protocol_type K config ≠ K.PROTOCOL_TYPE_MYSQL →
      basic_server_config_args K config = [FmtArg.uint 1412]) ∧
    (∀ plain : srpc_config, plain.type = K.COMMAND_HTTP →
      basic_server_config_args K plain = [FmtArg.uint 80]) := by
  obtain ⟨_, _, c3, _, _, _, p1, p2, _, p4, _, _, b1, _, _, _⟩ := hK
  refine ⟨rfl, fun h => ?_, fun h => ?_, fun h => ?_, fun h1 h2 h3 => ?_, fun plain h => ?_⟩
  · simp [basic_server_config_args, basic_server_config_port, h]
  · simp [basic_server_config_args, basic_server_config_port, h, Ne.symm p1]
  · simp [basic_server_config_args, basic_server_config_port, h, Ne.symm p2, Ne.symm p4]
  · simp [basic_server_config_args, basic_server_config_port, h1, h2, h3]
  · simp [basic_server_config_args, basic_server_config_port, get_server_protocol_type,
      get_protocol_type, to_uint8, h, Nat.mod_eq_of_lt, b1]

/-- Witness for C5, amended: the proxy command with an HTTP server side writes 80. -/
theorem basic_server_config_port_proxy_witness :
    basic_server_config_args sampleEnums
      { type := 6, proxy_server_type := 0, proxy_client_type := 1 } = [FmtArg.uint 80] :=
  (basic_server_config_port_proxy sampleEnums (by decide)
    { type := 6, proxy_server_type := 0, proxy_client_type := 1 } rfl).2.1 (by decide)

/-- C6: basic_client_config_transform substitutes the default port of the resolved
client type (HTTP 80, Redis 6379, MySQL 3306, otherwise 1412) for a command
that is not a proxy and that default minus one for a proxy; the 16-bit
subtraction does not wrap, and the port is one of 79, 80, 6378, 6379, 3305,
3306, 1411, 1412. -/
theorem basic_client_config_port_cases (K : Enums) (hK : K.wf) (config : srpc_config) :
    (∃ redirect credential, basic_client_config_args K config =
      [FmtArg.uint (basic_client_config_locals K config).port,
        FmtArg.str redirect, FmtArg.str credential]) ∧
    (spec_default_port K K.PROTOCOL_TYPE_HTTP = 80 ∧
      spec_default_port K K.PROTOCOL_TYPE_REDIS = 6379 ∧
      spec_default_port K K.PROTOCOL_TYPE_MYSQL = 3306 ∧
      ∀ t, t ≠ K.PROTOCOL_TYPE_HTTP → t ≠ K.PROTOCOL_TYPE_REDIS →
        t ≠ K.PROTOCOL_TYPE_MYSQL → spec_default_port K t = 1412) ∧
    (config.type ≠ K.COMMAND_PROXY →
      (basic_client_config_locals K config).port =
        spec_default_port K (get_client_protocol_type K config)) ∧
    (config.type = K.COMMAND_PROXY →
      ((basic_client_config_locals K config).port : Int) =
        (spec_default_port K (get_client_protocol_type K config) : Int) - 1) ∧
    (basic_client_config_locals K config).port ∈
      [79, 80, 6378, 6379, 3305, 3306, 1411, 1412] := by
  obtain ⟨_, _, _, _, _, _, p1, p2, _, p4, _, _, _, _, _, _⟩ := hK
  refine ⟨⟨_, _, rfl⟩, ⟨?_, ?_, ?_, ?_⟩, fun h => ?_, fun h => ?_, ?_⟩
  · simp [spec_default_port]
  · simp [spec_default_port, Ne.symm p1]
  · simp [spec_default_port, Ne.symm p2, Ne.symm p4]
  · intro t h1 h2 h3
    simp [spec_default_port, h1, h2, h3]
  · unfold basic_client_config_locals basic_client_config_branch spec_default_port
    simp only [h, if_false]
    split_ifs <;> rfl
  · unfold basic_client_config_locals basic_client_config_branch spec_default_port to_ushort
    simp only [h, if_true]
    split_ifs <;> simp
  · unfold basic_client_config_locals basic_client_config_branch to_ushort
    split_ifs <;> simp

/-- Witness for C6: the proxy command with a Redis client side targets port 6378. -/
theorem basic_client_config_port_cases_witness :
    ((basic_client_config_locals sampleEnums
      { type := 6, proxy_server_type := 0, proxy_client_type := 1 }).port : Int) = 6379 - 1 :=
  (basic_client_config_port_cases sampleEnums (by decide)
    { type := 6, proxy_server_type := 0, proxy_client_type := 1 }).2.2.2.1 rfl

/-! ## Config transforms: option fragments -/

/-- C8, the code at the failing input: username_passwd_codes is non-empty exactly
for Redis and MySQL, whereas the credential fragment that
basic_client_config_transform substitutes is non-empty exactly when the client
type resolves to Redis; for the MySQL command the first is non-empty and the
second is the empty string. -/
theorem basic_client_config_mysql_credential_empty (K : Enums) (hK : K.wf)
    (config : srpc_config) (hmysql : config.type = K.COMMAND_MYSQL) :
    (∀ t, username_passwd_codes K t ≠ "" ↔
      (t = K.PROTOCOL_TYPE_REDIS ∨ t = K.PROTOCOL_TYPE_MYSQL)) ∧
    (∀ c : srpc_config, (basic_client_config_locals K c).user_and_passwd ≠ "" ↔
      get_client_protocol_type K c = K.PROTOCOL_TYPE_REDIS) ∧
    get_client_protocol_type K config = K.PROTOCOL_TYPE_MYSQL ∧
    username_passwd_codes K (get_client_protocol_type K config) ≠ "" ∧
    (basic_client_config_locals K config).user_and_passwd = "" := by
  obtain ⟨_, c2, _, c4, _, c6, p1, p2, _, p4, _, _, _, _, b3, _⟩ := hK
  have hres : get_client_protocol_type K config = K.PROTOCOL_TYPE_MYSQL := by
    simp [get_client_protocol_type, get_protocol_type, to_uint8, hmysql, Ne.symm c2,
      Ne.symm c4, c6, Nat.mod_eq_of_lt, b3]
  have hcred : ∀ c : srpc_config, (basic_client_config_locals K c).user_and_passwd ≠ "" ↔
      get_client_protocol_type K c = K.PROTOCOL_TYPE_REDIS := by
    intro c
    unfold basic_client_config_locals basic_client_config_branch
    split_ifs <;> simp_all
  refine ⟨fun t => ?_, hcred, hres, ?_, ?_⟩
  · unfold username_passwd_codes
    split_ifs with h
    · exact ⟨fun _ => h, fun _ => by decide⟩
    · exact ⟨fun hne => absurd rfl hne, fun hh => absurd hh h⟩
  · rw [hres]
    simp only [username_passwd_codes, or_true, if_true]
    decide
  · have := (hcred config).not
    rw [hres] at this
    exact not_not.mp (this.mpr (Ne.symm p4))

/-- Witness for C8: the MySQL command under the sample enumerators. -/
theorem basic_client_config_mysql_credential_empty_witness :
    username_passwd_codes sampleEnums (get_client_protocol_type sampleEnums
      { type := 2, proxy_server_type := 0, proxy_client_type := 0 }) ≠ "" ∧
    (basic_client_config_locals sampleEnums
      { type := 2, proxy_server_type := 0, proxy_client_type := 0 }).user_and_passwd = "" :=
  (basic_client_config_mysql_credential_empty sampleEnums (by decide)
    { type := 2, proxy_server_type := 0, proxy_client_type := 0 } rfl).2.2.2

/-! ## Fragment library: properties -/

/-- Counterexample to C9 as stated: at the sentinel PROTOCOL_TYPE_MAX,
client_redirect_codes and username_passwd_codes return the empty string, which
is not the marker "Unknown type". -/
theorem option_fragments_at_sentinel_not_marker :
    client_redirect_codes sampleEnums sampleEnums.PROTOCOL_TYPE_MAX = "" ∧
    client_redirect_codes sampleEnums sampleEnums.PROTOCOL_TYPE_MAX ≠ "Unknown type" ∧
    username_passwd_codes sampleEnums sampleEnums.PROTOCOL_TYPE_MAX = "" ∧
    username_passwd_codes sampleEnums sampleEnums.PROTOCOL_TYPE_MAX ≠ "Unknown type" := by
  decide

/-- C9, amended: at the sentinel PROTOCOL_TYPE_MAX, server_process_codes,
client_task_callback_codes and client_set_request_codes return exactly
"Unknown type", while client_redirect_codes and username_passwd_codes return the
empty string. -/
theorem fragments_at_sentinel (K : Enums) (hK : K.wf) :
    server_process_codes K K.PROTOCOL_TYPE_MAX = "Unknown type" ∧
    client_task_callback_codes K K.PROTOCOL_TYPE_MAX = "Unknown type" ∧
    client_set_request_codes K K.PROTOCOL_TYPE_MAX = "Unknown type" ∧
    client_redirect_codes K K.PROTOCOL_TYPE_MAX = "" ∧
    username_passwd_codes K K.PROTOCOL_TYPE_MAX = "" := by
  obtain ⟨_, _, _, _, _, _, _, _, p3, _, p5, p6, _, _, _, _⟩ := hK
  refine ⟨?_, ?_, ?_, ?_, ?_⟩
  · simp [server_process_codes, Ne.symm p3, Ne.symm p5]
  · simp [client_task_callback_codes, Ne.symm p3, Ne.symm p5]
  · simp [client_set_request_codes, Ne.symm p3, Ne.symm p5]
  · simp [client_redirect_codes, Ne.symm p3]
  · simp [username_passwd_codes, Ne.symm p5, Ne.symm p6]

/-- Witness for C9, amended: the five fragments at the sentinel of the sample enumerators. -/
theorem fragments_at_sentinel_witness :
    server_process_codes sampleEnums 29 = "Unknown type" ∧
    client_task_callback_codes sampleEnums 29 = "Unknown type" ∧
    client_set_request_codes sampleEnums 29 = "Unknown type" ∧
    client_redirect_codes sampleEnums 29 = "" ∧
    username_passwd_codes sampleEnums 29 = "" :=
  fragments_at_sentinel sampleEnums (by decide)

/-- C11: for every protocol type other than HTTP and Redis, MySQL and the sentinel
included, server_process_codes, client_task_callback_codes and
client_set_request_codes each return exactly "Unknown type"; for HTTP and for
Redis each returns a text other than "Unknown type", and the HTTP text and the
Redis text of one function differ. -/
theorem fragments_marker_unless_http_redis (K : Enums) (hK : K.wf) :
    (∀ t, t ≠ K.PROTOCOL_TYPE_HTTP → t ≠ K.PROTOCOL_TYPE_REDIS →
      server_process_codes K t = "Unknown type" ∧
      client_task_callback_codes K t = "Unknown type" ∧
      client_set_request_codes K t = "Unknown type") ∧
    (server_process_codes K K.PROTOCOL_TYPE_MYSQL = "Unknown type" ∧
      client_task_callback_codes K K.PROTOCOL_TYPE_MYSQL = "Unknown type" ∧
      client_set_request_codes K K.PROTOCOL_TYPE_MYSQL = "Unknown type") ∧
    (server_process_codes K K.PROTOCOL_TYPE_MAX = "Unknown type" ∧
      client_task_callback_codes K K.PROTOCOL_TYPE_MAX = "Unknown type" ∧
      client_set_request_codes K K.PROTOCOL_TYPE_MAX = "Unknown type") ∧
    (server_process_codes K K.PROTOCOL_TYPE_HTTP ≠ "Unknown type" ∧
      client_task_callback_codes K K.PROTOCOL_TYPE_HTTP ≠ "Unknown type" ∧
      client_set_request_codes K K.PROTOCOL_TYPE_HTTP ≠ "Unknown type") ∧
    (server_process_codes K K.PROTOCOL_TYPE_REDIS ≠ "Unknown type" ∧
      client_task_callback_codes K K.PROTOCOL_TYPE_REDIS ≠ "Unknown type" ∧
      client_set_request_codes K K.PROTOCOL_TYPE_REDIS ≠ "Unknown type") ∧
    (server_process_codes K K.PROTOCOL_TYPE_HTTP ≠
        server_process_codes K K.PROTOCOL_TYPE_REDIS ∧
      client_task_callback_codes K K.PROTOCOL_TYPE_HTTP ≠
        client_task_callback_codes K K.PROTOCOL_TYPE_REDIS ∧
      client_set_request_codes K K.PROTOCOL_TYPE_HTTP ≠
        client_set_request_codes K K.PROTOCOL_TYPE_REDIS) := by
  obtain ⟨_, _, _, _, _, _, p1, p2, p3, p4, p5, _, _, _, _, _⟩ := hK
  have other : ∀ t, t ≠ K.PROTOCOL_TYPE_HTTP → t ≠ K.PROTOCOL_TYPE_REDIS →
      server_process_codes K t = "Unknown type" ∧
      client_task_callback_codes K t = "Unknown type" ∧
      client_set_request_codes K t = "Unknown type" := by
    intro t h1 h2
    simp [server_process_codes, client_task_callback_codes, client_set_request_codes, h1, h2]
  refine ⟨other, other _ (Ne.symm p2) (Ne.symm p4), other _ (Ne.symm p3) (Ne.symm p5),
    ?_, ?_, ?_⟩
  · simp only [server_process_codes, client_task_callback_codes, client_set_request_codes,
      if_true]
    decide
  · simp only [server_process_codes, client_task_callback_codes, client_set_request_codes,
      Ne.symm p1, if_true, if_false]
    decide
  · simp only [server_process_codes, client_task_callback_codes, client_set_request_codes,
      Ne.symm p1, if_true, if_false]
    decide

/-- Witness for C11: the three fragments of the sample enumerators at MySQL, and
the two texts of the request fragment. -/
theorem fragments_marker_unless_http_redis_witness :
    (server_process_codes sampleEnums 2 = "Unknown type" ∧
      client_task_callback_codes sampleEnums 2 = "Unknown type" ∧
      client_set_request_codes sampleEnums 2 = "Unknown type") ∧
    client_set_request_codes sampleEnums 0 ≠ client_set_request_codes sampleEnums 1 :=
  ⟨(fragments_marker_unless_http_redis sampleEnums (by decide)).2.1,
    (fragments_marker_unless_http_redis sampleEnums (by decide)).2.2.2.2.2.2.2⟩

/-! ## File manifest: counts -/

/-- Counterexample to C12 as stated: the manifest built on an empty list has twelve
entries, not ten, and five of them have a transform function, not four. -/
theorem manifest_not_ten_entries :
    ( basic_default_file_initialize []).length = 12 ∧
    ( basic_default_file_initialize []).length ≠ 10 ∧
    (( basic_default_file_initialize []).filter (fun e => e.transform.isSome)).length = 5 ∧
    (( basic_default_file_initialize []).filter (fun e => e.transform.isSome)).length ≠ 4 := by
  decide

/-- C12, amended: HttpController and RedisController hold the same manifest, the one
basic_default_file_initialize builds on an empty list; it has exactly twelve
entries, and exactly five of them have a non-null transform function: the
four basic transforms and common_cmake_transform. -/
theorem manifest_same_twelve_entries (K : Enums) (init : srpc_config) :
    (HttpController K init).default_files = (RedisController K init).default_files ∧
    (HttpController K init).default_files = basic_default_file_initialize [] ∧
    ( basic_default_file_initialize []).length = 12 ∧
    (( basic_default_file_initialize []).filter (fun e => e.transform.isSome)).length = 5 ∧
    ( basic_default_file_initialize []).filterMap (fun e => e.transform) =
      [transform_function.basic_server_config_transform,
        transform_function.basic_client_config_transform,
        transform_function.basic_server_transform,
        transform_function.basic_client_transform,
        transform_function.common_cmake_transform] := by
  refine ⟨rfl, rfl, ?_, ?_, ?_⟩ <;> decide

/-! ## Transforms: result of the write -/

/-- For an `int` result of the write, the `size_t` copy is positive unless the result is 0. -/
theorem to_size_t_pos_iff (r : Int) (hlo : -2 ^ 31 ≤ r) (hhi : r < 2 ^ 31) :
    0 < to_size_t r ↔ r ≠ 0 := by
  unfold to_size_t
  omega

/-- C13, the code at the failing input: with the `int` result of the write copied
into a `size_t` before the test `len > 0`, each of the four transforms returns
failure exactly when the write reports length 0; a write that reports -1 (or
any negative length) makes each of them return success. -/
theorem transforms_fail_only_on_zero_write (K : Enums) (get_type_string : Nat → String)
    (fprintf : Fprintf) (format : String) (config : srpc_config)
    (hint : ∀ f a, -2 ^ 31 ≤ fprintf f a ∧ fprintf f a < 2 ^ 31) :
    ((basic_server_config_transform K fprintf format config = false ↔
        fprintf format (basic_server_config_args K config) = 0) ∧
      (basic_client_config_transform K fprintf format config = false ↔
        fprintf format (basic_client_config_args K config) = 0) ∧
      (basic_server_transform K get_type_string fprintf format config = false ↔
        fprintf format (basic_server_args K get_type_string config) = 0) ∧
      (basic_client_transform K get_type_string fprintf format config = false ↔
        fprintf format (basic_client_args K get_type_string config) = 0)) ∧
    ((fprintf format (basic_server_config_args K config) < 0 →
        basic_server_config_transform K fprintf format config = true) ∧
      (fprintf format (basic_client_config_args K config) < 0 →
        basic_client_config_transform K fprintf format config = true) ∧
      (fprintf format (basic_server_args K get_type_string config) < 0 →
        basic_server_transform K get_type_string fprintf format config = true) ∧
      (fprintf format (basic_client_args K get_type_string config) < 0 →
        basic_client_transform K get_type_string fprintf format config = true)) := by
  have key : ∀ a, (decide (to_size_t (fprintf format a) > 0) = false ↔ fprintf format a = 0) ∧
      (fprintf format a < 0 → decide (to_size_t (fprintf format a) > 0) = true) := by
    intro a
    have h := to_size_t_pos_iff (fprintf format a) (hint format a).1 (hint format a).2
    constructor
    · rw [decide_eq_false_iff_not, gt_iff_lt, h, not_not]
    · intro hneg
      rw [decide_eq_true_iff, gt_iff_lt, h]
      omega
  exact ⟨⟨(key _).1, (key _).1, (key _).1, (key _).1⟩,
    ⟨(key _).2, (key _).2, (key _).2, (key _).2⟩⟩

/-- Witness for C13: a write that reports -1 for each of the four transforms. -/
theorem transforms_fail_only_on_zero_write_witness :
    basic_server_config_transform sampleEnums (fun _ _ => -1) "%u"
      { type := 0, proxy_server_type := 0, proxy_client_type := 0 } = true ∧
    basic_client_config_transform sampleEnums (fun _ _ => -1) "%u%s%s"
      { type := 0, proxy_server_type := 0, proxy_client_type := 0 } = true ∧
    basic_server_transform sampleEnums (fun _ => "Http") (fun _ _ => -1) "%s"
      { type := 0, proxy_server_type := 0, proxy_client_type := 0 } = true ∧
    basic_client_transform sampleEnums (fun _ => "Http") (fun _ _ => -1) "%s"
      { type := 0, proxy_server_type := 0, proxy_client_type := 0 } = true :=
  ⟨(transforms_fail_only_on_zero_write sampleEnums (fun _ => "Http") (fun _ _ => -1) "%u"
      { type := 0, proxy_server_type := 0, proxy_client_type := 0 }
      (fun _ _ => by norm_num)).2.1 (by decide),
   (transforms_fail_only_on_zero_write sampleEnums (fun _ => "Http") (fun _ _ => -1) "%u%s%s"
      { type := 0, proxy_server_type := 0, proxy_client_type := 0 }
      (fun _ _ => by norm_num)).2.2.1 (by decide),
   (transforms_fail_only_on_zero_write sampleEnums (fun _ => "Http") (fun _ _ => -1) "%s"
      { type := 0, proxy_server_type := 0, proxy_client_type := 0 }
      (fun _ _ => by norm_num)).2.2.2.1 (by decide),
   (transforms_fail_only_on_zero_write sampleEnums (fun _ => "Http") (fun _ _ => -1) "%s"
      { type := 0, proxy_server_type := 0, proxy_client_type := 0 }
      (fun _ _ => by norm_num)).2.2.2.2 (by decide)⟩

/-! ## Option parsing: properties -/

/-- A non-empty argument without white space is scanned by `%s` as a whole. -/
theorem sscanf_token_path (p : String) (hne : p ≠ "")
    (hns : ∀ c ∈ p.data, isspace c = false) : sscanf_token p = some p := by
  have hdata : p.data ≠ [] := by
    intro h
    apply hne
    cases p
    simp_all
  have hdrop : p.data.dropWhile isspace = p.data := by
    cases hd : p.data with
    | nil => rfl
    | cons c cs =>
      have hc : isspace c = false := hns c (by simp [hd])
      simp [List.dropWhile, hc]
  have htake : p.data.takeWhile (fun c => !isspace c) = p.data := by
    rw [List.takeWhile_eq_self_iff]
    intro c hc
    simp [hns c hc]
  unfold sscanf_token
  simp only [hdrop, htake]
  simp [hdata]

/-- The size in bytes of a string of `n` letters `a`. -/
theorem utf8ByteSize_replicate (n : Nat) :
    (String.mk (List.replicate n 'a')).utf8ByteSize = n := by
  show String.utf8ByteSize.go (List.replicate n 'a') = n
  induction n with
  | zero => rfl
  | succ k ih =>
    simp only [List.replicate_succ, String.utf8ByteSize.go, ih]
    rfl

/-- A string of `n + 1` letters `a` is a non-empty argument without white space. -/
theorem replicate_is_token (n : Nat) :
    String.mk (List.replicate (n + 1) 'a') ≠ "" ∧
    ∀ c ∈ (String.mk (List.replicate (n + 1) 'a')).data, isspace c = false := by
  constructor
  · intro h
    have hlen := congrArg String.length h
    simp [String.length] at hlen
  · intro c hc
    have hc' : c = 'a' := List.eq_of_mem_replicate hc
    rw [hc']
    decide

/-- When the first result of `getopt` is `o` with a token that does not fit the
path buffer, the store runs past the buffer and the call has no defined result. -/
theorem basic_get_opt_overrun (MAXPATHLEN : Nat) (argv : List String) (config : srpc_config)
    (p : String) (rest : List (Char × String)) (hne : p ≠ "")
    (hns : ∀ c ∈ p.data, isspace c = false) (hbig : MAXPATHLEN ≤ p.utf8ByteSize)
    (hres : getopt_results false (argv.drop 3) = ('o', p) :: rest) :
    basic_get_opt MAXPATHLEN argv config = none := by
  have htok := sscanf_token_path p hne hns
  have hstore : store_path MAXPATHLEN p = none := by
    simp [store_path, Nat.not_lt.mpr hbig]
  simp [basic_get_opt, hres, get_opt_loop, htok, hstore]

/-- Counterexample to C14 as stated: with path buffers of 4096 bytes, the options
-o p for the path p of 4096 letters a, which is non-empty and free of white
space, do not make the call return success with output_path set to p: the
token and its terminating NUL do not fit, and the store overruns the buffer. -/
theorem basic_get_opt_overlong_output_path :
    String.mk (List.replicate 4096 'a') ≠ "" ∧
    (∀ c ∈ (String.mk (List.replicate 4096 'a')).data, isspace c = false) ∧
    (["srpc", "http", "demo", "-o", String.mk (List.replicate 4096 'a')].drop 3 =
      ["-o", String.mk (List.replicate 4096 'a')]) ∧
    basic_get_opt 4096 ["srpc", "http", "demo", "-o", String.mk (List.replicate 4096 'a')]
        { type := 0, proxy_server_type := 0, proxy_client_type := 0 } = none ∧
    basic_get_opt 4096 ["srpc", "http", "demo", "-o", String.mk (List.replicate 4096 'a')]
        { type := 0, proxy_server_type := 0, proxy_client_type := 0 } ≠
      some (true,
        { type := 0, proxy_server_type := 0, proxy_client_type := 0,
          output_path := String.mk (List.replicate 4096 'a') }) := by
  have htoken := replicate_is_token 4095
  have hnone : basic_get_opt 4096
      ["srpc", "http", "demo", "-o", String.mk (List.replicate 4096 'a')]
      { type := 0, proxy_server_type := 0, proxy_client_type := 0 } = none := by
    apply basic_get_opt_overrun 4096 _ _ (String.mk (List.replicate 4096 'a')) []
      htoken.1 htoken.2
    · rw [utf8ByteSize_replicate]
    · simp [getopt_results, getopt_cluster, optstring_chars]
  refine ⟨htoken.1, htoken.2, rfl, hnone, ?_⟩
  rw [hnone]
  exact fun h => Option.noConfusion h

/-- C14, amended: for a path p that is non-empty, free of white space and shorter
than MAXPATHLEN bytes, basic_get_opt on an argument vector whose options from
index 3 are exactly -o p returns success and changes output_path to p and
nothing else (template_path, depend_path and specified_depend_path keep their
values); likewise -t p changes template_path only. The same holds when
operands stand between the arguments, as long as -o p (or -t p) is all that
getopt scans. -/
theorem basic_get_opt_sets_one_path (MAXPATHLEN : Nat) (argv : List String)
    (config : srpc_config) (p : String) (hne : p ≠ "")
    (hns : ∀ c ∈ p.data, isspace c = false) (hfit : p.utf8ByteSize < MAXPATHLEN) :
    (argv.drop 3 = ["-o", p] →
      basic_get_opt MAXPATHLEN argv config = some (true, { config with output_path := p })) ∧
    (argv.drop 3 = ["-t", p] →
      basic_get_opt MAXPATHLEN argv config =
        some (true, { config with template_path := p })) ∧
    (getopt_results false (argv.drop 3) = [('o', p)] →
      basic_get_opt MAXPATHLEN argv config = some (true, { config with output_path := p })) ∧
    (getopt_results false (argv.drop 3) = [('t', p)] →
      basic_get_opt MAXPATHLEN argv config =
        some (true, { config with template_path := p })) := by
  have htok := sscanf_token_path p hne hns
  have hout : getopt_results false (argv.drop 3) = [('o', p)] →
      basic_get_opt MAXPATHLEN argv config =
        some (true, { config with output_path := p }) := by
    intro h
    simp [basic_get_opt, h, get_opt_loop, htok, store_path, hfit]
  have htpl : getopt_results false (argv.drop 3) = [('t', p)] →
      basic_get_opt MAXPATHLEN argv config =
        some (true, { config with template_path := p }) := by
    intro h
    simp [basic_get_opt, h, get_opt_loop, htok, store_path, hfit]
  refine ⟨fun h => hout ?_, fun h => htpl ?_, hout, htpl⟩
  · rw [h]
    simp [getopt_results, getopt_cluster, optstring_chars]
  · rw [h]
    simp [getopt_results, getopt_cluster, optstring_chars]

/-- Witness for C14, amended: the options -o /tmp/out after program name, command
and project name. -/
theorem basic_get_opt_sets_one_path_witness :
    basic_get_opt 4096 ["srpc", "http", "demo", "-o", "/tmp/out"]
        { type := 0, proxy_server_type := 0, proxy_client_type := 0,
          template_path := "/tpl", depend_path := "/dep" } =
      some (true,
        { type := 0, proxy_server_type := 0, proxy_client_type := 0,
          output_path := "/tmp/out", template_path := "/tpl", depend_path := "/dep" }) :=
  (basic_get_opt_sets_one_path 4096 ["srpc", "http", "demo", "-o", "/tmp/out"]
    { type := 0, proxy_server_type := 0, proxy_client_type := 0,
      template_path := "/tpl", depend_path := "/dep" }
    "/tmp/out" (by decide) (by decide) (by decide)).1 rfl

/-- C16, the code at the failing input: for a path p that is non-empty, free of
white space and fits a path buffer, the options -d p set
specified_depend_path and store p in depend_path, and then the call returns
failure, because case d runs into the default case. -/
theorem basic_get_opt_depend_path_fails (MAXPATHLEN : Nat) (argv : List String)
    (config : srpc_config) (p : String) (hne : p ≠ "")
    (hns : ∀ c ∈ p.data, isspace c = false) (hfit : p.utf8ByteSize < MAXPATHLEN)
    (hargs : argv.drop 3 = ["-d", p]) :
    getopt_results false (argv.drop 3) = [('d', p)] ∧
    basic_get_opt MAXPATHLEN argv config =
      some (false, { config with specified_depend_path := true, depend_path := p }) := by
  have htok := sscanf_token_path p hne hns
  have hres : getopt_results false ["-d", p] = [('d', p)] := by
    simp [getopt_results, getopt_cluster, optstring_chars]
  rw [hargs]
  refine ⟨hres, ?_⟩
  simp [basic_get_opt, hargs, hres, get_opt_loop, htok, store_path, hfit]

/-- Witness for C16: the options -d /tmp/dep. -/
theorem basic_get_opt_depend_path_fails_witness :
    basic_get_opt 4096 ["srpc", "http", "demo", "-d", "/tmp/dep"]
        { type := 0, proxy_server_type := 0, proxy_client_type := 0 } =
      some (false,
        { type := 0, proxy_server_type := 0, proxy_client_type := 0,
          depend_path := "/tmp/dep", specified_depend_path := true }) :=
  (basic_get_opt_depend_path_fails 4096 ["srpc", "http", "demo", "-d", "/tmp/dep"]
    { type := 0, proxy_server_type := 0, proxy_client_type := 0 }
    "/tmp/dep" (by decide) (by decide) (by decide) rfl).2

/-! ## Main-source transforms: argument order -/

/-- The lower-case form of a character is never one of the letters `A` to `Z`. -/
theorem toLower_not_upper (d : Char) :
    ¬ (65 ≤ d.toLower.toNat ∧ d.toLower.toNat ≤ 90) := by
  unfold Char.toLower
  by_cases h : d.toNat ≥ 65 ∧ d.toNat ≤ 90
  · simp only [if_pos h]
    obtain ⟨h1, h2⟩ := h
    generalize d.toNat = n at h1 h2
    interval_cases n <;> decide
  · simp only [if_neg h]
    exact h

/-- A character that is not one of the letters `A` to `Z` is its own lower-case form. -/
theorem toLower_of_not_upper (d : Char) (h : ¬ (65 ≤ d.toNat ∧ d.toNat ≤ 90)) :
    d.toLower = d := by
  unfold Char.toLower
  exact if_neg h

/-- C17: basic_client_transform passes to the formatted write, in order of first
appearance, the display name of the resolved client type, the client-callback
fragment, the lower-cased display name, the credential fragment, the redirect
fragment and the request fragment, all computed from the one resolved client
type; basic_server_transform passes name, name, server-handler fragment, name,
name for the one resolved server type. The lower-cased name has the length of
the name, each of its characters is the lower-case form of the character of
the name at that place, and no letter A to Z is left in it; for the display
name "Http" of an HTTP command it is "http", and the six distinct arguments
appear first in the order stated. -/
theorem main_transform_arguments (K : Enums) (get_type_string : Nat → String)
    (fprintf : Fprintf) (format : String) (config : srpc_config) :
    (∃ lower : String,
      basic_client_args K get_type_string config =
        [FmtArg.str (get_type_string (get_client_protocol_type K config)),
          FmtArg.str (get_type_string (get_client_protocol_type K config)),
          FmtArg.str (get_type_string (get_client_protocol_type K config)),
          FmtArg.str (client_task_callback_codes K (get_client_protocol_type K config)),
          FmtArg.str lower,
          FmtArg.str (username_passwd_codes K (get_client_protocol_type K config)),
          FmtArg.str (get_type_string (get_client_protocol_type K config)),
          FmtArg.str lower,
          FmtArg.str (client_redirect_codes K (get_client_protocol_type K config)),
          FmtArg.str (client_set_request_codes K (get_client_protocol_type K config))] ∧
      lower.length = (get_type_string (get_client_protocol_type K config)).length ∧
      (∀ i : Nat, lower.data[i]? =
        ((get_type_string (get_client_protocol_type K config)).data[i]?).map
          Char.toLower) ∧
      (∀ c ∈ lower.data, ¬ (65 ≤ c.toNat ∧ c.toNat ≤ 90)) ∧
      ((∀ c ∈ (get_type_string (get_client_protocol_type K config)).data,
          ¬ (65 ≤ c.toNat ∧ c.toNat ≤ 90)) →
        lower = get_type_string (get_client_protocol_type K config))) ∧
    basic_server_args K get_type_string config =
      [FmtArg.str (get_type_string (get_server_protocol_type K config)),
        FmtArg.str (get_type_string (get_server_protocol_type K config)),
        FmtArg.str (server_process_codes K (get_server_protocol_type K config)),
        FmtArg.str (get_type_string (get_server_protocol_type K config)),
        FmtArg.str (get_type_string (get_server_protocol_type K config))] ∧
    basic_client_transform K get_type_string fprintf format config =
      decide (0 < to_size_t (fprintf format (basic_client_args K get_type_string config))) ∧
    basic_server_transform K get_type_string fprintf format config =
      decide (0 < to_size_t (fprintf format (basic_server_args K get_type_string config))) ∧
    (to_lower "Http" = "http" ∧ to_lower "Redis" = "redis" ∧ to_lower "MySQL" = "mysql") ∧
    basic_client_args sampleEnums (fun _ => "Http")
        { type := 0, proxy_server_type := 0, proxy_client_type := 0 } =
      [FmtArg.str "Http", FmtArg.str "Http", FmtArg.str "Http",
        FmtArg.str (client_task_callback_codes sampleEnums 0),
        FmtArg.str "http",
        FmtArg.str "",
        FmtArg.str "Http", FmtArg.str "http",
        FmtArg.str (client_redirect_codes sampleEnums 0),
        FmtArg.str (client_set_request_codes sampleEnums 0)] ∧
    (basic_client_args sampleEnums (fun _ => "Http")
        { type := 0, proxy_server_type := 0, proxy_client_type := 0 }).eraseDups =
      [FmtArg.str "Http",
        FmtArg.str (client_task_callback_codes sampleEnums 0),
        FmtArg.str "http",
        FmtArg.str (username_passwd_codes sampleEnums 0),
        FmtArg.str (client_redirect_codes sampleEnums 0),
        FmtArg.str (client_set_request_codes sampleEnums 0)] := by
  refine ⟨⟨to_lower (get_type_string (get_client_protocol_type K config)), rfl, ?_, ?_, ?_, ?_⟩,
    rfl, rfl, rfl, ⟨by decide, by decide, by decide⟩, rfl, rfl⟩
  · exact List.length_map _ _
  · intro i
    exact List.getElem?_map _ _ _
  · intro c hc
    simp only [to_lower, List.mem_map] at hc
    obtain ⟨d, _, hd⟩ := hc
    rw [← hd]
    exact toLower_not_upper d
  · intro hno
    have hmap : (get_type_string (get_client_protocol_type K config)).data.map Char.toLower =
        (get_type_string (get_client_protocol_type K config)).data := by
      conv_rhs => rw [← List.map_id (get_type_string (get_client_protocol_type K config)).data]
      exact List.map_congr_left (fun d hd => toLower_of_not_upper d (hno d hd))
    simp only [to_lower, hmap]

/-- Witness for C17: the arguments of the client transform for the HTTP command
under the display name "Http", with "http" in the fifth and eighth place. -/
theorem main_transform_arguments_witness :
    (basic_client_args sampleEnums (fun _ => "Http")
        { type := 0, proxy_server_type := 0, proxy_client_type := 0 }).eraseDups =
      [FmtArg.str "Http",
        FmtArg.str (client_task_callback_codes sampleEnums 0),
        FmtArg.str "http",
        FmtArg.str (username_passwd_codes sampleEnums 0),
        FmtArg.str (client_redirect_codes sampleEnums 0),
        FmtArg.str (client_set_request_codes sampleEnums 0)] ∧
    (∀ c ∈ ("http" : String).data, ¬ (65 ≤ c.toNat ∧ c.toNat ≤ 90)) :=
  ⟨(main_transform_arguments sampleEnums (fun _ => "Http") (fun _ _ => 1) "%s"
      { type := 0, proxy_server_type := 0, proxy_client_type := 0 }).2.2.2.2.2.2,
    by decide⟩

/-! ## File manifest: paths -/

/-- C18: every entry of the manifest built by basic_default_file_initialize has a
non-empty template path and a non-empty destination path; on a list whose
entries have that property the function keeps it. -/
theorem manifest_paths_nonempty :
    (∀ e ∈ basic_default_file_initialize [], e.in_file ≠ "" ∧ e.out_file ≠ "") ∧
    (∀ files : List file_info, (∀ e ∈ files, e.in_file ≠ "" ∧ e.out_file ≠ "") →
      ∀ e ∈ basic_default_file_initialize files, e.in_file ≠ "" ∧ e.out_file ≠ "") := by
  have hnew : ∀ e ∈ basic_default_file_initialize [], e.in_file ≠ "" ∧ e.out_file ≠ "" := by
    decide
  refine ⟨hnew, fun files hfiles e he => ?_⟩
  have hsplit : basic_default_file_initialize files =
      files ++ basic_default_file_initialize [] := rfl
  rw [hsplit, List.mem_append] at he
  rcases he with h | h
  · exact hfiles e h
  · exact hnew e h

/-- Witness for C18: the entry of the CMake build file. -/
theorem manifest_paths_nonempty_witness :
    ("common/CMakeLists.txt" : String) ≠ "" ∧ ("CMakeLists.txt" : String) ≠ "" :=
  manifest_paths_nonempty.1
    { in_file := "common/CMakeLists.txt", out_file := "CMakeLists.txt",
      transform := some transform_function.common_cmake_transform } (by decide)

/-- C19: the destination paths of the manifest built on an empty list are pairwise
distinct, and so are those of every reordering of it: no entry writes the
file of another. -/
theorem manifest_destinations_distinct :
    (( basic_default_file_initialize []).map file_info.out_file).Nodup ∧
    (∀ order : List file_info, order.Perm ( basic_default_file_initialize []) →
      (order.map file_info.out_file).Nodup) := by
  have h : (( basic_default_file_initialize []).map file_info.out_file).Nodup := by decide
  exact ⟨h, fun order hperm => ((hperm.map file_info.out_file).nodup_iff).mpr h⟩

/-- Witness for C19: the manifest processed from the last entry to the first. -/
theorem manifest_destinations_distinct_witness :
    (( basic_default_file_initialize []).reverse.map file_info.out_file).Nodup :=
  manifest_destinations_distinct.2 _ (List.reverse_perm _)

/-! ## Config transforms: client port against server port -/

/-- C20: for a command that is not a proxy, basic_server_config_transform and
basic_client_config_transform substitute the same port; for a proxy command
whose client and server sub-types are equal, the client port is exactly one
less than the server port. -/
theorem config_ports_related (K : Enums) (config : srpc_config) :
    (config.type ≠ K.COMMAND_PROXY →
      basic_server_config_args K config =
        [FmtArg.uint (basic_client_config_locals K config).port] ∧
      (basic_client_config_args K config).head? = (basic_server_config_args K config).head?) ∧
    (config.type = K.COMMAND_PROXY →
      config.proxy_client_type = config.proxy_server_type →
      (basic_client_config_args K config).head? =
        some (FmtArg.uint (basic_client_config_locals K config).port) ∧
      basic_server_config_args K config = [FmtArg.uint (basic_server_config_port K config)] ∧
      ((basic_client_config_locals K config).port : Int) =
        (basic_server_config_port K config : Int) - 1) := by
  constructor
  · intro h
    have hsame : get_client_protocol_type K config = get_server_protocol_type K config := by
      simp [get_client_protocol_type, get_server_protocol_type, get_protocol_type, h]
    have hport : basic_server_config_port K config =
        (basic_client_config_locals K config).port := by
      unfold basic_server_config_port basic_client_config_locals basic_client_config_branch
      rw [hsame]
      simp only [h, if_false]
      split_ifs <;> rfl
    simp [basic_server_config_args, basic_client_config_args, hport]
  · intro h hsub
    have hsame : get_client_protocol_type K config = get_server_protocol_type K config := by
      simp [get_client_protocol_type, get_server_protocol_type, hsub]
    refine ⟨rfl, rfl, ?_⟩
    unfold basic_server_config_port basic_client_config_locals basic_client_config_branch
      to_ushort
    rw [hsame]
    simp only [h, if_true]
    split_ifs <;> simp

/-- Witness for C20: the plain Redis command uses 6379 on both sides, and the proxy
command with Redis on both sides has the client on 6378 against 6379. -/
theorem config_ports_related_witness :
    basic_server_config_args sampleEnums
        { type := 1, proxy_server_type := 0, proxy_client_type := 2 } =
      [FmtArg.uint (basic_client_config_locals sampleEnums
        { type := 1, proxy_server_type := 0, proxy_client_type := 2 }).port] ∧
    ((basic_client_config_locals sampleEnums
        { type := 6, proxy_server_type := 1, proxy_client_type := 1 }).port : Int) =
      (basic_server_config_port sampleEnums
        { type := 6, proxy_server_type := 1, proxy_client_type := 1 } : Int) - 1 :=
  ⟨((config_ports_related sampleEnums
      { type := 1, proxy_server_type := 0, proxy_client_type := 2 }).1 (by decide)).1,
   ((config_ports_related sampleEnums
      { type := 6, proxy_server_type := 1, proxy_client_type := 1 }).2 rfl rfl).2.2⟩

end Srpc
